import Mathlib

/-!
# Verification of the `oasregistry` OpenAPI registry

A shallow embedding of `src/oasregistry/registry.go` (package `oasregistry` of
`sibber5/go-openapi-builder`): the operation-identifier synthesis (`generateID`),
the schema catalog (`addSchemaAndGetRef` / `getObjectTypeName`), and the
registry/builder surface (`AddEndpoint`, `BuildSpec`, the `With*` methods).

Modelling conventions:
* Go strings are modelled as Lean `String` / `List Char`.  All string data
  exercised here is ASCII, where Go's byte-wise indexing and Lean's
  character-wise indexing coincide (`'/'`, `'{'`, `'}'`, `'s'`, `'i'`, `'d'`
  are one UTF-8 byte, and cannot occur as a continuation byte).
* `panic` in the Go source is modelled as `Except.error` with one error
  constructor per distinct panic site; the doc comment of `RegErr` maps
  constructors to the Go panic messages.
* Pointer-backed mutation (`*Registry`, `*openapi3.Operation`) is modelled by
  explicit state passing: each operation takes the current registry (and,
  for builder methods, the current operation record) and returns the updated
  values.
* The process-wide globals `gen` (the `openapi3gen` generator) and `modPath`
  (from `debug.ReadBuildInfo`) are passed as explicit parameters `genF` and
  `modPath`.
-/

/-- Models Go `unicode.ToLower` on the ASCII range (all characters exercised
by the registry's paths and methods are ASCII). -/
def goToLower (c : Char) : Char :=
  if 'A' ≤ c ∧ c ≤ 'Z' then Char.ofNat (c.toNat + 32) else c

/-- Models Go `unicode.ToUpper` on the ASCII range. -/
def goToUpper (c : Char) : Char :=
  if 'a' ≤ c ∧ c ≤ 'z' then Char.ofNat (c.toNat - 32) else c

/-- Index of the first occurrence of `c` in `l`, models Go
`strings.IndexByte` (`none` for Go's `-1`). -/
def goIndexOf : List Char → Char → Option Nat
  | [], _ => none
  | x :: xs, c => if x = c then some 0 else (goIndexOf xs c).map (· + 1)

/-- Index of the last occurrence of `c` in `l`, models Go
`strings.LastIndexByte` (`none` for Go's `-1`). -/
def goLastIndexOf (l : List Char) (c : Char) : Option Nat :=
  (goIndexOf l.reverse c).map (fun i => l.length - 1 - i)

/-- `isPfx p s` : `p` is a prefix of `s` (on character lists). -/
def isPfx : List Char → List Char → Bool
  | [], _ => true
  | _ :: _, [] => false
  | p :: ps, s :: ss => p = s && isPfx ps ss

/-- Models Go `strings.CutPrefix s pfx`: `some rest` when `pfx` is a prefix
of `s` (Go's `ok = true`), `none` otherwise. -/
def cutPfx (s pfx : String) : Option String :=
  if isPfx pfx.toList s.toList then
    some (String.mk (s.toList.drop pfx.toList.length))
  else none

/-- The prefix-trimming loop at the end of `getObjectTypeName`:
`for _, p := range r.schemaKeyPrefixesToTrim { res, _ = strings.CutPrefix(res, p) }`.
Every configured prefix is tried, in order, against the current name. -/
def trimPfxs (pfxs : List String) (s : String) : String :=
  pfxs.foldl (fun acc p => (cutPfx acc p).getD acc) s

/-- Association-list lookup, models Go map indexing / kin-openapi `Value`. -/
def alistLookup {α : Type} : List (String × α) → String → Option α
  | [], _ => none
  | (k, v) :: rest, key => if k = key then some v else alistLookup rest key

/-- Association-list upsert, models Go map assignment / kin-openapi `Set`. -/
def alistInsert {α : Type} : List (String × α) → String → α → List (String × α)
  | [], key, v => [(key, v)]
  | (k, v') :: rest, key, v =>
    if k = key then (key, v) :: rest else (k, v') :: alistInsert rest key v

/-- Membership in a list of strings, models Go `_, exists := m[id]` on the
`operationIDs` set. -/
def idMem : List String → String → Bool
  | [], _ => false
  | x :: xs, s => x = s || idMem xs s

/-- Every distinct `panic` site of `registry.go`, as an error value.
The Go messages are:
* `mutateAfterBuild` — "cannot mutate already built registry"
* `doubleBuild` — "registry is already built"
* `noDoc` — "registry has no OpenAPI document"
* `duplicateOperationID` — "operation with id %s already exists"
* `unsupportedMethod` — "unsupported method: "
* `endpointAlreadyRegistered` — "endpoint is already registered for "
* `pathEmpty` — "path is empty"
* `unsupportedPathFormat` — "unsupported path format: "
* `pathEndsWithSlash` — "unsupported path format, path ends with '/': "
* `sliceOutOfRange` — the Go runtime panic of `path[1:]` on an empty string
* `indexOutOfRange` — the Go runtime panic of `nextWord[0]` on an empty segment
* `decodeRuneError` — "unexpected first letter in word: "
* `fuelExhausted` — embedding artifact (unreachable: the scan loop consumes
  at least one character per step and is given `length + 1` fuel)
* `summaryAlreadySet` — "summary has already been set"
* `descriptionAlreadySet` — "description has already been set"
* `requestBodyAlreadySet` — "request body has already been set"
* `invalidStatusCode` — "invalid http status code: "
* `duplicateResponseStatus` — "response with status code %s has already been set"
* `notImplementedMap` — "not implemented yet"
* `unsupportedKind` — "object kind is not supported"
* `genError` — "error generating object schema: "
* `emptyPkgPath` — "unexpected empty type package path"
* `modPathFormatUnsupported` — "type package path format not supported"
* `pkgNotSameOrg` — "type pacakge ... does not belong to same org. ..."
* `nameCollision` — "object type name %v is already registered with type %v"
* `nilDocDereference` — the Go runtime nil-pointer panic of `r.t.…` when `r.t == nil`
-/
inductive RegErr where
  | mutateAfterBuild
  | doubleBuild
  | noDoc
  | duplicateOperationID
  | unsupportedMethod
  | endpointAlreadyRegistered
  | pathEmpty
  | unsupportedPathFormat
  | pathEndsWithSlash
  | sliceOutOfRange
  | indexOutOfRange
  | decodeRuneError
  | fuelExhausted
  | summaryAlreadySet
  | descriptionAlreadySet
  | requestBodyAlreadySet
  | invalidStatusCode
  | duplicateResponseStatus
  | notImplementedMap
  | unsupportedKind
  | genError (msg : String)
  | emptyPkgPath
  | modPathFormatUnsupported
  | pkgNotSameOrg
  | nameCollision
  | nilDocDereference
deriving DecidableEq, Repr

/-- The `getNextWord` closure inside `generateID` (registry.go lines 255-294),
on a nonempty suffix `p` of the path.  Returns the word to emit and the Go
index (`nextIdx`) the caller adds to its loop variable:
* the whole suffix when it holds no `'/'`;
* the current word alone for a plain segment;
* the current word minus its trailing `'s'`, consuming the following
  `{...id}`-shaped placeholder, for the collection-addressed-by-id step. -/
def getNextWord (p : List Char) : Except RegErr (List Char × Nat) :=
  match p with
  | [] => .error .pathEmpty
  | c0 :: _ =>
    if c0 = '{' ∨ c0 = '/' then .error .unsupportedPathFormat
    else
      match goIndexOf p '/' with
      | none => .ok (p, p.length)
      | some curWordEnd =>
        if curWordEnd = p.length - 1 then .error .pathEndsWithSlash
        else
          let curWord := p.take curWordEnd
          let nextWordStart := curWordEnd + 1
          let nextWordEnd :=
            match goIndexOf (p.drop nextWordStart) '/' with
            | none => p.length
            | some k => k + nextWordStart
          let nextWord := (p.take nextWordEnd).drop nextWordStart
          if 4 ≤ nextWord.length ∧
              nextWord.headD ' ' = '{' ∧ nextWord.getLastD ' ' = '}' ∧
              goToLower (nextWord.getD (nextWord.length - 3) ' ') = 'i' ∧
              goToLower (nextWord.getD (nextWord.length - 2) ' ') = 'd' ∧
              curWord.getLastD ' ' = 's' ∧ 1 < curWord.length then
            .ok (curWord.take (curWord.length - 1), nextWordEnd)
          else if nextWord.length = 0 then .error .indexOutOfRange
          else if nextWord.headD ' ' = '{' then .error .unsupportedPathFormat
          else .ok (curWord, curWordEnd)

/-- The scan loop of `generateID` (registry.go lines 302-317): repeatedly
take the next word at the current word start, Pascal-case it (first letter
upper-cased via `utf8.DecodeRuneInString`, the rest untouched) and append it;
the next word start is one past the index returned by `getNextWord`.
`fuel` is an embedding artifact for structural recursion; each step consumes
at least one character, so `length + 1` fuel can never run out. -/
def genWords : Nat → List Char → List Char → Except RegErr (List Char)
  | _, [], acc => .ok acc
  | 0, _ :: _, _ => .error .fuelExhausted
  | fuel + 1, c :: cs, acc =>
    match getNextWord (c :: cs) with
    | .error e => .error e
    | .ok (word, nextIdx) =>
      match word with
      | [] => .error .decodeRuneError
      | w :: ws => genWords fuel ((c :: cs).drop (nextIdx + 1)) (acc ++ (goToUpper w :: ws))

/-- `generateID` (registry.go lines 254-320): lower-case the method, strip
the first character of the path (`path[1:]`, a Go slice-bounds panic when the
path is empty), then concatenate the Pascal-cased words produced by the scan
loop. -/
def generateID (method path : String) : Except RegErr String :=
  if path.length = 0 then .error .sliceOutOfRange
  else
    let p := path.toList.drop 1
    match genWords (p.length + 1) p [] with
    | .error e => .error e
    | .ok ws => .ok (String.mk (method.toList.map goToLower ++ ws))

deriving instance DecidableEq for Except

/-- A Go `reflect.Type`, restricted to the structure observed by
`addSchemaAndGetRef`: the kind, the element type for collections and
pointer-like kinds, and `(PkgPath, Name)` for struct types.  Two defined Go
struct types are identical exactly when their package path and name agree. -/
inductive Ty where
  | primTy (kind : String)
  | structTy (pkgPath : String) (name : String)
  | sliceTy (elem : Ty)
  | arrayTy (size : Nat) (elem : Ty)
  | mapTy (key : Ty) (value : Ty)
  | chanTy (elem : Ty)
  | funcTy
  | ifaceTy
  | ptrTy (elem : Ty)
  | unsafePtrTy
  | invalidTy
deriving DecidableEq, Repr

/-- An `openapi3.SchemaRef`: either a `$ref` by name (`Ref` field set), an
inline array schema produced by `openapi3.NewArraySchema` with `Items` set,
or an opaque inline node returned by the external generator
(`gen.NewSchemaRefForValue`), tagged by the type it was generated from. -/
inductive SchemaRef where
  | refName (ref : String)
  | arrVal (items : SchemaRef)
  | genVal (t : Ty)
deriving DecidableEq, Repr

/-- An `openapi3.Response` as built by the registry: `NewResponse()
.WithDescription(d)` and optionally `.WithJSONSchemaRef(ref)`. -/
structure Response where
  description : String
  content : Option SchemaRef
deriving DecidableEq, Repr

/-- An `openapi3.RequestBody` as built by `WithRequestBody`:
`NewRequestBody().WithRequired(true).WithJSONSchemaRef(ref)`. -/
structure RequestBody where
  required : Bool
  schema : SchemaRef
deriving DecidableEq, Repr

/-- An `openapi3.Operation`, restricted to the fields the registry touches.
`responses` is `none` while the Go `Responses` pointer is nil. -/
structure Operation where
  operationID : String
  summary : String
  description : String
  tags : List String
  requestBody : Option RequestBody
  responses : Option (List (String × Response))
deriving DecidableEq, Repr

/-- `openapi3.NewOperation()` returns `&Operation{}`: all fields zero. -/
def Operation.new : Operation :=
  { operationID := "", summary := "", description := "", tags := [],
    requestBody := none, responses := none }

/-- An `openapi3.PathItem`: one optional operation per supported method. -/
structure PathItem where
  get : Option Operation
  post : Option Operation
  put : Option Operation
  delete : Option Operation
  patch : Option Operation
deriving DecidableEq, Repr

/-- `&openapi3.PathItem{}`: all method slots nil. -/
def PathItem.empty : PathItem :=
  { get := none, post := none, put := none, delete := none, patch := none }

/-- The five methods `register` recognizes (`http.MethodGet` etc.). -/
inductive Method where
  | get | post | put | delete | patch
deriving DecidableEq, Repr

/-- The `switch method` of `register`: `"GET"`, `"POST"`, `"PUT"`,
`"DELETE"`, `"PATCH"`; anything else hits the `default` panic. -/
def parseMethod (method : String) : Option Method :=
  if method = "GET" then some .get
  else if method = "POST" then some .post
  else if method = "PUT" then some .put
  else if method = "DELETE" then some .delete
  else if method = "PATCH" then some .patch
  else none

/-- Read the operation slot selected by `opRef` in `register`. -/
def PathItem.getOp (item : PathItem) : Method → Option Operation
  | .get => item.get
  | .post => item.post
  | .put => item.put
  | .delete => item.delete
  | .patch => item.patch

/-- Write the operation slot selected by `opRef` in `register`. -/
def PathItem.setOp (item : PathItem) : Method → Option Operation → PathItem
  | .get, v => { item with get := v }
  | .post, v => { item with post := v }
  | .put, v => { item with put := v }
  | .delete, v => { item with delete := v }
  | .patch, v => { item with patch := v }

/-- The `openapi3.T` document, restricted to the parts the registry builds:
the version string, the paths map, and the component-schemas map
(`none` while `Components` is a nil pointer). -/
structure OpenAPIDoc where
  openapi : String
  paths : List (String × PathItem)
  components : Option (List (String × SchemaRef))
deriving DecidableEq, Repr

/-- The `Registry` struct.  The Go maps set to `nil` by `BuildSpec` are
modelled as emptied lists (every access after the build is guarded by the
`built` flag, so nil and empty maps are indistinguishable here); the `t`
document pointer is an `Option`. -/
structure Registry where
  operationIDs : List String
  registeredObjectTypes : List (String × Ty)
  schemaKeyPrefixesToTrim : List String
  t : Option OpenAPIDoc
  built : Bool
deriving DecidableEq, Repr

/-- `New(info, opts...)`: a fresh registry holding an empty `3.0.3` document;
`pfxs` collects what the `WithSchemaKeyPrefixesToTrim` options appended. -/
def Registry.new (pfxs : List String) : Registry :=
  { operationIDs := [], registeredObjectTypes := [],
    schemaKeyPrefixesToTrim := pfxs,
    t := some { openapi := "3.0.3", paths := [], components := none },
    built := false }

/-- Go `net/http.StatusText`: the canonical status text, or `""` for a code
with no registered text. -/
def statusText (code : Int) : String :=
  if code = 100 then "Continue"
  else if code = 101 then "Switching Protocols"
  else if code = 102 then "Processing"
  else if code = 103 then "Early Hints"
  else if code = 200 then "OK"
  else if code = 201 then "Created"
  else if code = 202 then "Accepted"
  else if code = 203 then "Non-Authoritative Information"
  else if code = 204 then "No Content"
  else if code = 205 then "Reset Content"
  else if code = 206 then "Partial Content"
  else if code = 207 then "Multi-Status"
  else if code = 208 then "Already Reported"
  else if code = 226 then "IM Used"
  else if code = 300 then "Multiple Choices"
  else if code = 301 then "Moved Permanently"
  else if code = 302 then "Found"
  else if code = 303 then "See Other"
  else if code = 304 then "Not Modified"
  else if code = 305 then "Use Proxy"
  else if code = 307 then "Temporary Redirect"
  else if code = 308 then "Permanent Redirect"
  else if code = 400 then "Bad Request"
  else if code = 401 then "Unauthorized"
  else if code = 402 then "Payment Required"
  else if code = 403 then "Forbidden"
  else if code = 404 then "Not Found"
  else if code = 405 then "Method Not Allowed"
  else if code = 406 then "Not Acceptable"
  else if code = 407 then "Proxy Authentication Required"
  else if code = 408 then "Request Timeout"
  else if code = 409 then "Conflict"
  else if code = 410 then "Gone"
  else if code = 411 then "Length Required"
  else if code = 412 then "Precondition Failed"
  else if code = 413 then "Request Entity Too Large"
  else if code = 414 then "Request URI Too Long"
  else if code = 415 then "Unsupported Media Type"
  else if code = 416 then "Requested Range Not Satisfiable"
  else if code = 417 then "Expectation Failed"
  else if code = 418 then "I\x27m a teapot"
  else if code = 421 then "Misdirected Request"
  else if code = 422 then "Unprocessable Entity"
  else if code = 423 then "Locked"
  else if code = 424 then "Failed Dependency"
  else if code = 425 then "Too Early"
  else if code = 426 then "Upgrade Required"
  else if code = 428 then "Precondition Required"
  else if code = 429 then "Too Many Requests"
  else if code = 431 then "Request Header Fields Too Large"
  else if code = 451 then "Unavailable For Legal Reasons"
  else if code = 500 then "Internal Server Error"
  else if code = 501 then "Not Implemented"
  else if code = 502 then "Bad Gateway"
  else if code = 503 then "Service Unavailable"
  else if code = 504 then "Gateway Timeout"
  else if code = 505 then "HTTP Version Not Supported"
  else if code = 506 then "Variant Also Negotiates"
  else if code = 507 then "Insufficient Storage"
  else if code = 508 then "Loop Detected"
  else if code = 510 then "Not Extended"
  else if code = 511 then "Network Authentication Required"
  else ""

/-- The Pascal-casing loop of `getObjectTypeName` (registry.go lines 378-389):
drop `'/'` and `'-'`, upper-case a character at the start or right after a
dropped separator, keep everything else; `prev` tracks the previous rune. -/
def pascalizePath (prev : Option Char) : List Char → List Char
  | [] => []
  | c :: rest =>
    (if c ≠ '/' ∧ c ≠ '-' then
      [if prev = none ∨ prev = some '/' ∨ prev = some '-' then goToUpper c else c]
    else []) ++ pascalizePath (some c) rest

/-- `getObjectTypeName` (registry.go lines 357-398): derive the catalog name
of a struct type from its package path.  With a known module path, the
"org" prefix (everything up to and including the last `'/'` of `modPath`)
must prefix the package path; the module path remainder is then also cut if
present.  The surviving package path is Pascal-cased per `'/'`/`'-'`
component, the bare type name is appended, and the configured prefixes are
trimmed in order. -/
def getObjectTypeName (modPath : String) (pfxs : List String)
    (pkgPath typeName : String) : Except RegErr String :=
  if pkgPath = "" then .error .emptyPkgPath
  else
    let cutRes : Except RegErr String :=
      if modPath = "" then .ok pkgPath
      else
        let modOrgEnd : Nat :=
          match goLastIndexOf modPath.toList '/' with
          | none => 0
          | some i => i + 1
        if modOrgEnd = 0 then .error .modPathFormatUnsupported
        else
          let modOrg := String.mk (modPath.toList.take modOrgEnd)
          match cutPfx pkgPath modOrg with
          | none => .error .pkgNotSameOrg
          | some cutP =>
            .ok ((cutPfx cutP (String.mk (modPath.toList.drop modOrgEnd))).getD cutP)
    match cutRes with
    | .error e => .error e
    | .ok localPath =>
      .ok (trimPfxs pfxs (String.mk (pascalizePath none localPath.toList ++ typeName.toList)))

/-- Modelled from the spec: strip only the first configured prefix that
matches, then stop. -/
def trimFirstMatch : List String → String → String
  | [], s => s
  | p :: rest, s =>
    match cutPfx s p with
    | some s2 => s2
    | none => trimFirstMatch rest s

/-- Modelled from the spec: name derivation as §4.3 of the spec words the
prefix configuration — identical to `getObjectTypeName` except that prefix
stripping is "first match wins, applied once per name": the first configured
prefix that matches is stripped and no further configured prefix is applied. -/
def getObjectTypeNameFirstMatch (modPath : String) (pfxs : List String)
    (pkgPath typeName : String) : Except RegErr String :=
  (getObjectTypeName modPath [] pkgPath typeName).map (trimFirstMatch pfxs)

/-- `addSchemaAndGetRef` (registry.go lines 337-418), with the process
globals as parameters: `genF` models `gen.NewSchemaRefForValue` applied to a
zero value of the type, `modPath` models the build-info module path.
Returns the Go result (or the panic) together with the registry afterwards;
on an error the registry carries exactly the mutations committed before the
panic (only the `Components` initialization can precede a failure). -/
def addSchemaAndGetRef (genF : Ty → Except String SchemaRef) (modPath : String)
    (r : Registry) (objectType : Ty) : Except RegErr SchemaRef × Registry :=
  match objectType with
  | .mapTy _ _ => (.error .notImplementedMap, r)
  | .sliceTy elem =>
    match addSchemaAndGetRef genF modPath r elem with
    | (.ok ref, r2) => (.ok (.arrVal ref), r2)
    | (.error e, r2) => (.error e, r2)
  | .arrayTy _ elem =>
    match addSchemaAndGetRef genF modPath r elem with
    | (.ok ref, r2) => (.ok (.arrVal ref), r2)
    | (.error e, r2) => (.error e, r2)
  | .chanTy _ => (.error .unsupportedKind, r)
  | .funcTy => (.error .unsupportedKind, r)
  | .ifaceTy => (.error .unsupportedKind, r)
  | .ptrTy _ => (.error .unsupportedKind, r)
  | .unsafePtrTy => (.error .unsupportedKind, r)
  | .invalidTy => (.error .unsupportedKind, r)
  | .primTy k =>
    match genF (.primTy k) with
    | .ok s => (.ok s, r)
    | .error msg => (.error (.genError msg), r)
  | .structTy pkg nm =>
    match getObjectTypeName modPath r.schemaKeyPrefixesToTrim pkg nm with
    | .error e => (.error e, r)
    | .ok objectTypeName =>
      match alistLookup r.registeredObjectTypes objectTypeName with
      | some regType =>
        if regType = Ty.structTy pkg nm then
          (.ok (.refName ("#/components/schemas/" ++ objectTypeName)), r)
        else (.error .nameCollision, r)
      | none =>
        match r.t with
        | none => (.error .nilDocDereference, r)
        | some doc =>
          let schemas0 := doc.components.getD []
          match genF (.structTy pkg nm) with
          | .error msg =>
            (.error (.genError msg), { r with t := some { doc with components := some schemas0 } })
          | .ok schema =>
            (.ok (.refName ("#/components/schemas/" ++ objectTypeName)),
             { r with
               t := some { doc with components := some (alistInsert schemas0 objectTypeName schema) },
               registeredObjectTypes :=
                 alistInsert r.registeredObjectTypes objectTypeName (Ty.structTy pkg nm) })

/-- `register` (registry.go lines 221-249).  Note the check at line 243 is
`if *opRef == nil { panic("endpoint is already registered ...") }`: it
panics when the slot is EMPTY and overwrites when it is occupied. -/
def Registry.register (r : Registry) (method path : String) (op : Operation) :
    Except RegErr Registry :=
  match r.t with
  | none => .error .nilDocDereference
  | some doc =>
    let item := (alistLookup doc.paths path).getD PathItem.empty
    match parseMethod method with
    | none => .error .unsupportedMethod
    | some m =>
      if (item.getOp m).isNone then .error .endpointAlreadyRegistered
      else
        .ok { r with t := some { doc with paths := alistInsert doc.paths path (item.setOp m (some op)) } }

/-- `AddEndpoint` (registry.go lines 95-112): built check, identifier
synthesis, duplicate-identifier check, identifier recorded, fresh operation
registered via `register`, builder handle returned.  The Go code assigns
`op.OperationID = id` through the pointer just after `register` stores it;
the operation is created here with the identifier already set, which is
observationally the same. -/
def Registry.AddEndpoint (r : Registry) (method path : String) :
    Except RegErr (Operation × Registry) :=
  if r.built then .error .mutateAfterBuild
  else
    match generateID method path with
    | .error e => .error e
    | .ok id =>
      if idMem r.operationIDs id then .error .duplicateOperationID
      else
        let r1 := { r with operationIDs := id :: r.operationIDs }
        let op := { Operation.new with operationID := id }
        match r1.register method path op with
        | .error e => .error e
        | .ok r2 => .ok (op, r2)

/-- `BuildSpec` (registry.go lines 65-85): one-shot; hands out the document
and clears all registry state. -/
def Registry.BuildSpec (r : Registry) : Except RegErr (OpenAPIDoc × Registry) :=
  if r.built then .error .doubleBuild
  else
    match r.t with
    | none => .error .noDoc
    | some doc =>
      .ok (doc,
        { operationIDs := [], registeredObjectTypes := [],
          schemaKeyPrefixesToTrim := [], t := none, built := true })

/-- kin-openapi `Responses.Value` with a nil-safe receiver: `none` while the
`Responses` pointer is nil. -/
def responsesValue (rs : Option (List (String × Response))) (key : String) :
    Option Response :=
  match rs with
  | none => none
  | some l => alistLookup l key

/-- `addResponse` (registry.go lines 213-219): initialize `Responses` (the
fresh `NewResponses()` minus its `"default"` entry is empty) and set the
status entry. -/
def addResponse (op : Operation) (status : String) (response : Response) : Operation :=
  { op with responses := some (alistInsert (op.responses.getD []) status response) }

/-- `OperationBuilder.WithSummary` (registry.go lines 114-123).  The Go
builder holds `*Operation` and `*Registry`; the current registry and
operation are passed explicitly and returned updated. -/
def WithSummary (r : Registry) (op : Operation) (summary : String) :
    Except RegErr (Operation × Registry) :=
  if r.built then .error .mutateAfterBuild
  else if op.summary ≠ "" then .error .summaryAlreadySet
  else .ok ({ op with summary := summary }, r)

/-- `OperationBuilder.WithTags` (registry.go lines 125-131): append-only. -/
def WithTags (r : Registry) (op : Operation) (tags : List String) :
    Except RegErr (Operation × Registry) :=
  if r.built then .error .mutateAfterBuild
  else .ok ({ op with tags := op.tags ++ tags }, r)

/-- `OperationBuilder.WithDescription` (registry.go lines 133-142). -/
def WithDescription (r : Registry) (op : Operation) (description : String) :
    Except RegErr (Operation × Registry) :=
  if r.built then .error .mutateAfterBuild
  else if op.description ≠ "" then .error .descriptionAlreadySet
  else .ok ({ op with description := description }, r)

/-- `OperationBuilder.WithRequestBody` (registry.go lines 144-158). -/
def WithRequestBody (genF : Ty → Except String SchemaRef) (modPath : String)
    (r : Registry) (op : Operation) (requestBodyType : Ty) :
    Except RegErr (Operation × Registry) :=
  if r.built then .error .mutateAfterBuild
  else if op.requestBody.isSome then .error .requestBodyAlreadySet
  else
    match addSchemaAndGetRef genF modPath r requestBodyType with
    | (.error e, _) => .error e
    | (.ok ref, r2) =>
      .ok ({ op with requestBody := some { required := true, schema := ref } }, r2)

/-- `OperationBuilder.WithResponse` (registry.go lines 160-184): range check
on the status, duplicate-status check, and the empty description is replaced
by `http.StatusText(status)`. -/
def WithResponse (r : Registry) (op : Operation) (status : Int) (description : String) :
    Except RegErr (Operation × Registry) :=
  if r.built then .error .mutateAfterBuild
  else
    let statusStr := toString status
    if status < 0 ∨ 600 ≤ status then .error .invalidStatusCode
    else if (responsesValue op.responses statusStr).isSome then .error .duplicateResponseStatus
    else
      let d := if description = "" then statusText status else description
      .ok (addResponse op statusStr { description := d, content := none }, r)

/-- `OperationBuilder.WithResponseWithContent` (registry.go lines 186-211):
like `WithResponse` but the response also carries the JSON schema reference
resolved for `contentType`. -/
def WithResponseWithContent (genF : Ty → Except String SchemaRef) (modPath : String)
    (r : Registry) (op : Operation) (status : Int) (description : String)
    (contentType : Ty) : Except RegErr (Operation × Registry) :=
  if r.built then .error .mutateAfterBuild
  else
    let statusStr := toString status
    if status < 0 ∨ 600 ≤ status then .error .invalidStatusCode
    else if (responsesValue op.responses statusStr).isSome then .error .duplicateResponseStatus
    else
      let d := if description = "" then statusText status else description
      match addSchemaAndGetRef genF modPath r contentType with
      | (.error e, _) => .error e
      | (.ok ref, r2) =>
        .ok (addResponse op statusStr { description := d, content := some ref }, r2)

/-- A canonical external generator for concrete witnesses: always succeeds,
returning an opaque inline node tagged by the type. -/
def genSample (t : Ty) : Except String SchemaRef := .ok (.genVal t)

section Helpers

theorem alistLookup_insert_self {α : Type} (l : List (String × α)) (k : String) (v : α) :
    alistLookup (alistInsert l k v) k = some v := by
  induction l with
  | nil => simp [alistInsert, alistLookup]
  | cons hd tl ih =>
    obtain ⟨k', v'⟩ := hd
    by_cases hk : k' = k <;> simp [alistInsert, alistLookup, hk, ih]

theorem alistLookup_insert_or {α : Type} (l : List (String × α)) (k n : String) (v w : α)
    (h : alistLookup (alistInsert l k v) n = some w) :
    (n = k ∧ w = v) ∨ alistLookup l n = some w := by
  induction l with
  | nil =>
    simp [alistInsert, alistLookup] at h
    rcases h with ⟨h1, h2⟩
    exact Or.inl ⟨h1.symm, h2.symm⟩
  | cons hd tl ih =>
    obtain ⟨k', v'⟩ := hd
    by_cases hk : k' = k
    · subst hk
      simp [alistInsert, alistLookup] at h
      by_cases hn : k' = n
      · subst hn
        simp at h
        exact Or.inl ⟨rfl, h.symm⟩
      · simp [hn] at h
        exact Or.inr (by simp [alistLookup, hn, h])
    · simp [alistInsert, hk, alistLookup] at h
      by_cases hn : k' = n
      · subst hn
        simp at h
        exact Or.inr (by simp [alistLookup, h])
      · simp [hn] at h
        rcases ih h with h1 | h2
        · exact Or.inl h1
        · exact Or.inr (by simp [alistLookup, hn, h2])

theorem isPfx_self_append (x y : List Char) : isPfx x (x ++ y) = true := by
  induction x with
  | nil => simp [isPfx]
  | cons c cs ih => simp [isPfx, ih]

theorem cutPfx_append (p t : String) : cutPfx (p ++ t) p = some t := by
  have hdata : (p ++ t).toList = p.toList ++ t.toList := String.data_append p t
  have hlen : (p.toList ++ t.toList).drop p.toList.length = t.toList := by
    simp
  simp only [cutPfx, hdata, isPfx_self_append, if_pos, hlen]
  cases t
  rfl

end Helpers

/-- **C1.** The claim says `AddEndpoint` succeeds on a fresh registry for a
supported method and well-formed path, and fails exactly when the same
`(method, path)` pair was already registered.  The code does the opposite:
`register` (registry.go line 243) panics when the method slot of the path
item is nil — i.e. on every FIRST registration — so `AddEndpoint` can never
succeed on a fresh registry.  The check is inverted (`== nil` instead of
`!= nil`), contradicting `AddEndpoint`'s own doc comment and the README's
usage example.  This theorem evaluates the code at the failing input. -/
theorem c1_addEndpoint_never_succeeds :
    (∀ (pfxs : List String) (method path : String),
       (Registry.AddEndpoint (Registry.new pfxs) method path).isOk = false) ∧
    Registry.AddEndpoint (Registry.new []) "GET" "/users/{userId}" =
      .error .endpointAlreadyRegistered := by
  refine ⟨?_, by decide⟩
  intro pfxs method path
  unfold Registry.AddEndpoint
  cases hgen : generateID method path with
  | error e => simp [Registry.new, hgen, Except.isOk, Except.toBool]
  | ok id =>
    simp only [Registry.new, hgen, idMem, Bool.false_eq_true, if_false]
    unfold Registry.register
    simp only [alistLookup, Option.getD_none]
    cases hm : parseMethod method with
    | none => simp [Except.isOk, Except.toBool]
    | some m =>
      cases m <;> simp [PathItem.getOp, PathItem.empty, Except.isOk, Except.toBool]

/-- **C2.** The three documented identifier-synthesis examples hold. -/
theorem c2_generateID_examples :
    generateID "GET" "/users/{userId}" = .ok "getUser" ∧
    generateID "POST" "/users" = .ok "postUsers" ∧
    generateID "GET" "/users/{userId}/orders/{orderId}" = .ok "getUserOrder" := by
  decide

/-- **C3 counterexample.** The claim says synthesis on `"/users/{id}"` fails
with a format error.  It does not: the code's length guard
`len(nextWord) >= 4` counts the whole placeholder token INCLUDING the
braces, and `"{id}"` has exactly 4 bytes and ends in `id}`, so the
collection-addressed-by-id rule applies and synthesis returns `"getUser"`. -/
theorem c3_counterexample : generateID "GET" "/users/{id}" = .ok "getUser" := by
  decide

/-- **C3 amended.** Synthesis on `"/users/{id}"` succeeds with `"getUser"`:
the id-suffix rule requires the whole placeholder token (braces included) to
have at least 4 characters and end case-insensitively in `id}`, so the inner
name needs only 2 characters.  A placeholder below the threshold, such as
`"{x}"`, does fail with a format error. -/
theorem c3_amended :
    generateID "GET" "/users/{id}" = .ok "getUser" ∧
    generateID "POST" "/users/{id}" = .ok "postUser" ∧
    generateID "GET" "/users/{x}" = .error .unsupportedPathFormat := by
  decide

/-- **C4 counterexample.** The claim says synthesis fails for every path
that is empty, does not start with `'/'`, or ends with `'/'`.  Two concrete
refutations: the path `"/"` ends with `'/'` yet synthesis succeeds and
returns just the lower-cased method, and the path `"users"` does not start
with `'/'` yet synthesis succeeds (the first character is stripped
unconditionally) and returns `"getSers"`. -/
theorem c4_counterexample :
    generateID "GET" "/" = .ok "get" ∧
    generateID "GET" "users" = .ok "getSers" := by
  decide

/-- **C4 amended.** Synthesis fails on the empty path (the Go slice
expression `path[1:]` panics).  The leading character is stripped without
being checked, so a path not starting with `'/'` may still synthesize
(`"users"` → `"getSers"`).  A path ending with `'/'` fails when the slash
terminates a pending segment (`"/users/"`), but not always: `"/"` yields
just the method, and `"/users/{uid}/"` yields `"getUser"` because the
placeholder step consumes up to the final slash. -/
theorem c4_amended :
    generateID "GET" "" = .error .sliceOutOfRange ∧
    generateID "GET" "/users/" = .error .pathEndsWithSlash ∧
    generateID "GET" "users" = .ok "getSers" ∧
    generateID "GET" "/" = .ok "get" ∧
    generateID "GET" "/users/{uid}/" = .ok "getUser" := by
  decide

/-- **C5 counterexample.** The claim says prefix stripping is first match
wins: once one configured prefix matched, no further prefix is applied.
With module path `github.com/acme/app`, a type `User` in package
`github.com/acme/app/contracts` derives the base name `ContractsUser`; with
the configured prefixes `["Con", "tracts"]` the code strips BOTH in turn and
returns `"User"`, while the first-match-wins reading (modelled by
`getObjectTypeNameFirstMatch`) would return `"tractsUser"`. -/
theorem c5_counterexample :
    getObjectTypeName "github.com/acme/app" ["Con", "tracts"]
      "github.com/acme/app/contracts" "User" = .ok "User" ∧
    getObjectTypeNameFirstMatch "github.com/acme/app" ["Con", "tracts"]
      "github.com/acme/app/contracts" "User" = .ok "tractsUser" ∧
    (Except.ok "User" : Except RegErr String) ≠ .ok "tractsUser" := by
  decide

/-- **C5 amended.** The configured prefixes are applied to the derived name
in configuration order, but each configured prefix is tried against the
current name and stripped when it matches — several prefixes can strip from
one name in sequence.  Equivalently, the derivation with prefixes is the
bare derivation followed by the sequential trim fold, and a name of the
shape `p ++ q ++ u` configured with `[p, q]` loses both prefixes. -/
theorem c5_amended :
    (∀ (modPath : String) (pfxs : List String) (pkgPath typeName : String),
       getObjectTypeName modPath pfxs pkgPath typeName =
         (getObjectTypeName modPath [] pkgPath typeName).map (trimPfxs pfxs)) ∧
    (∀ p q u : String, trimPfxs [p, q] (p ++ (q ++ u)) = u) := by
  constructor
  · intro mp pfxs pkg nm
    unfold getObjectTypeName
    by_cases h : pkg = ""
    · simp [h, Except.map]
    · simp only [h, if_false]
      by_cases hm : mp = ""
      · simp [hm, trimPfxs, Except.map]
      · simp only [hm, if_false]
        cases hidx : goLastIndexOf mp.toList '/' with
        | none => simp [trimPfxs, Except.map]
        | some i =>
          simp only
          by_cases hz : i + 1 = 0
          · simp [hz, trimPfxs, Except.map]
          · simp only [hz, if_false]
            cases hcut : cutPfx pkg (String.mk (mp.toList.take (i + 1))) with
            | none => simp [trimPfxs, Except.map]
            | some cutP => simp [trimPfxs, Except.map]
  · intro p q u
    simp [trimPfxs, cutPfx_append]

/-- **C6.** Within one registry lifetime, resolving the same struct type a
second time adds nothing and returns the identical named reference, and
resolving a DIFFERENT struct type whose derived catalog name collides with
the registered one fails with the naming-collision panic, leaving the
registry (hence the catalog) exactly as it was. -/
theorem c6_resolve_idempotent_and_collision
    (genF : Ty → Except String SchemaRef) (modPath : String)
    (r r2 : Registry) (pkg nm : String) (ref : SchemaRef)
    (h : addSchemaAndGetRef genF modPath r (.structTy pkg nm) = (.ok ref, r2)) :
    addSchemaAndGetRef genF modPath r2 (.structTy pkg nm) = (.ok ref, r2) ∧
    (∀ pkg2 nm2 n2,
       Ty.structTy pkg2 nm2 ≠ Ty.structTy pkg nm →
       getObjectTypeName modPath r.schemaKeyPrefixesToTrim pkg2 nm2 = .ok n2 →
       getObjectTypeName modPath r.schemaKeyPrefixesToTrim pkg nm = .ok n2 →
       addSchemaAndGetRef genF modPath r2 (.structTy pkg2 nm2) =
         (.error .nameCollision, r2)) := by
  unfold addSchemaAndGetRef at h
  cases hname : getObjectTypeName modPath r.schemaKeyPrefixesToTrim pkg nm with
  | error e => rw [hname] at h; simp at h
  | ok n0 =>
    rw [hname] at h
    simp only at h
    cases hreg : alistLookup r.registeredObjectTypes n0 with
    | some regType =>
      rw [hreg] at h
      simp only at h
      by_cases heq : regType = Ty.structTy pkg nm
      · rw [if_pos heq, Prod.mk.injEq] at h
        obtain ⟨href, hr2⟩ := h
        rw [Except.ok.injEq] at href
        subst hr2
        refine ⟨?_, ?_⟩
        · unfold addSchemaAndGetRef
          rw [hname]
          simp only
          rw [hreg]
          simp only
          rw [if_pos heq, href]
        · intro pkg2 nm2 n2 hne h2 h3
          have hk : n2 = n0 := (Except.ok.inj h3).symm
          subst hk
          have hcne : ¬(regType = Ty.structTy pkg2 nm2) := by
            rw [heq]
            exact fun hc => hne hc.symm
          unfold addSchemaAndGetRef
          rw [h2]
          simp only
          rw [hreg]
          simp only
          simp [hcne]
      · rw [if_neg heq] at h
        simp at h
    | none =>
      rw [hreg] at h
      simp only at h
      cases hdoc : r.t with
      | none => rw [hdoc] at h; simp at h
      | some doc =>
        rw [hdoc] at h
        simp only at h
        cases hgen : genF (.structTy pkg nm) with
        | error msg => rw [hgen] at h; simp at h
        | ok schema =>
          rw [hgen] at h
          simp only [Prod.mk.injEq] at h
          obtain ⟨href, hr2⟩ := h
          rw [Except.ok.injEq] at href
          have hp : r2.schemaKeyPrefixesToTrim = r.schemaKeyPrefixesToTrim := by
            rw [← hr2]
          have hl : alistLookup r2.registeredObjectTypes n0 =
              some (Ty.structTy pkg nm) := by
            rw [← hr2]
            exact alistLookup_insert_self _ _ _
          refine ⟨?_, ?_⟩
          · unfold addSchemaAndGetRef
            rw [hp, hname]
            simp only
            rw [hl]
            simp only
            simp [href]
          · intro pkg2 nm2 n2 hne h2 h3
            have hk : n2 = n0 := (Except.ok.inj h3).symm
            subst hk
            have hcne : ¬(Ty.structTy pkg nm = Ty.structTy pkg2 nm2) :=
              fun hc => hne hc.symm
            unfold addSchemaAndGetRef
            rw [hp, h2]
            simp only
            rw [hl]
            simp only
            simp [hcne]

/-- The registry state after resolving `models.User` once on a fresh
registry (used by the C6 witness). -/
def c6Reg2 : Registry :=
  (addSchemaAndGetRef genSample "github.com/acme/app" (Registry.new [])
    (.structTy "github.com/acme/app/models" "User")).2

theorem c6_witness :
    addSchemaAndGetRef genSample "github.com/acme/app" c6Reg2
      (.structTy "github.com/acme/app/models" "User") =
      (.ok (.refName "#/components/schemas/ModelsUser"), c6Reg2) ∧
    addSchemaAndGetRef genSample "github.com/acme/app" c6Reg2
      (.structTy "github.com/acme/app" "ModelsUser") =
      (.error .nameCollision, c6Reg2) := by
  have h := c6_resolve_idempotent_and_collision genSample "github.com/acme/app"
    (Registry.new []) c6Reg2 "github.com/acme/app/models" "User"
    (.refName "#/components/schemas/ModelsUser") (by decide)
  exact ⟨h.1, h.2 "github.com/acme/app" "ModelsUser" "ModelsUser"
    (by decide) (by decide) (by decide)⟩

/-- **C7.** Once `BuildSpec` succeeds, the registry is consumed: a further
`AddEndpoint`, a second `BuildSpec`, and every builder method applied
against the consumed registry (the Go handles hold a `*Registry` pointer,
modelled by passing the post-build registry) fail instead of silently
no-opping. -/
theorem c7_buildSpec_freezes (r r2 : Registry) (doc : OpenAPIDoc)
    (h : r.BuildSpec = .ok (doc, r2)) :
    (∀ method path, r2.AddEndpoint method path = .error .mutateAfterBuild) ∧
    r2.BuildSpec = .error .doubleBuild ∧
    (∀ op s, WithSummary r2 op s = .error .mutateAfterBuild) ∧
    (∀ op ts, WithTags r2 op ts = .error .mutateAfterBuild) ∧
    (∀ op d, WithDescription r2 op d = .error .mutateAfterBuild) ∧
    (∀ genF modPath op ty,
       WithRequestBody genF modPath r2 op ty = .error .mutateAfterBuild) ∧
    (∀ op st d, WithResponse r2 op st d = .error .mutateAfterBuild) ∧
    (∀ genF modPath op st d ty,
       WithResponseWithContent genF modPath r2 op st d ty = .error .mutateAfterBuild) := by
  unfold Registry.BuildSpec at h
  cases hb : r.built with
  | true => rw [hb] at h; simp at h
  | false =>
    rw [hb] at h
    simp only [Bool.false_eq_true, if_false] at h
    cases hdoc : r.t with
    | none => rw [hdoc] at h; simp at h
    | some d0 =>
      rw [hdoc] at h
      simp only [Prod.mk.injEq, Except.ok.injEq] at h
      obtain ⟨-, hr2⟩ := h
      have hbuilt : r2.built = true := by rw [← hr2]
      refine ⟨?_, ?_, ?_, ?_, ?_, ?_, ?_, ?_⟩
      · intro method path
        unfold Registry.AddEndpoint
        rw [hbuilt]
        simp
      · unfold Registry.BuildSpec
        rw [hbuilt]
        simp
      · intro op s
        unfold WithSummary
        rw [hbuilt]
        simp
      · intro op ts
        unfold WithTags
        rw [hbuilt]
        simp
      · intro op d
        unfold WithDescription
        rw [hbuilt]
        simp
      · intro genF modPath op ty
        unfold WithRequestBody
        rw [hbuilt]
        simp
      · intro op st d
        unfold WithResponse
        rw [hbuilt]
        simp
      · intro genF modPath op st d ty
        unfold WithResponseWithContent
        rw [hbuilt]
        simp

/-- The consumed registry produced by a successful `BuildSpec` (used by the
C7 witness). -/
def c7Consumed : Registry :=
  { operationIDs := [], registeredObjectTypes := [],
    schemaKeyPrefixesToTrim := [], t := none, built := true }

theorem c7_witness :
    Registry.AddEndpoint c7Consumed "GET" "/users" = .error .mutateAfterBuild ∧
    Registry.BuildSpec c7Consumed = .error .doubleBuild ∧
    WithSummary c7Consumed Operation.new "s" = .error .mutateAfterBuild ∧
    WithResponse c7Consumed Operation.new 200 "ok" = .error .mutateAfterBuild := by
  have h := c7_buildSpec_freezes (Registry.new []) c7Consumed
    { openapi := "3.0.3", paths := [], components := none } (by decide)
  exact ⟨h.1 "GET" "/users", h.2.1, h.2.2.1 Operation.new "s",
    h.2.2.2.2.2.2.1 Operation.new 200 "ok"⟩

/-- **C8 counterexample.** The claim says a second `WithSummary` /
`WithDescription` fails after any first call, regardless of the string
values.  The code uses the empty string as the "unset" sentinel
(`if o.op.Summary != ""`), so setting the summary to `""` does not mark it
as set: the second call still succeeds. -/
theorem c8_counterexample :
    WithSummary (Registry.new []) Operation.new "" =
      .ok (Operation.new, Registry.new []) ∧
    WithSummary (Registry.new []) Operation.new "second" =
      .ok ({ Operation.new with summary := "second" }, Registry.new []) ∧
    WithDescription (Registry.new []) Operation.new "" =
      .ok (Operation.new, Registry.new []) ∧
    WithDescription (Registry.new []) Operation.new "second" =
      .ok ({ Operation.new with description := "second" }, Registry.new []) := by
  decide

/-- **C8 amended.** `WithSummary` (resp. `WithDescription`) fails on a
second call whenever a previous call set the field to a NON-EMPTY string;
the empty string is the unset sentinel and does not arm the
exactly-once check. -/
theorem c8_amended :
    (∀ r op s op2 r2 s2,
       WithSummary r op s = .ok (op2, r2) → s ≠ "" →
       WithSummary r2 op2 s2 = .error .summaryAlreadySet) ∧
    (∀ r op d op2 r2 d2,
       WithDescription r op d = .ok (op2, r2) → d ≠ "" →
       WithDescription r2 op2 d2 = .error .descriptionAlreadySet) := by
  constructor
  · intro r op s op2 r2 s2 h hs
    unfold WithSummary at h
    cases hb : r.built with
    | true => rw [hb] at h; simp at h
    | false =>
      rw [hb] at h
      simp only [Bool.false_eq_true, if_false] at h
      by_cases hsum : op.summary = ""
      · rw [if_neg (by simp [hsum])] at h
        simp only [Prod.mk.injEq, Except.ok.injEq] at h
        obtain ⟨hop2, hr2⟩ := h
        have hsum2 : op2.summary = s := by rw [← hop2]
        unfold WithSummary
        rw [← hr2, hb]
        simp [hsum2, hs]
      · rw [if_pos hsum] at h
        simp at h
  · intro r op d op2 r2 d2 h hd
    unfold WithDescription at h
    cases hb : r.built with
    | true => rw [hb] at h; simp at h
    | false =>
      rw [hb] at h
      simp only [Bool.false_eq_true, if_false] at h
      by_cases hdesc : op.description = ""
      · rw [if_neg (by simp [hdesc])] at h
        simp only [Prod.mk.injEq, Except.ok.injEq] at h
        obtain ⟨hop2, hr2⟩ := h
        have hdesc2 : op2.description = d := by rw [← hop2]
        unfold WithDescription
        rw [← hr2, hb]
        simp [hdesc2, hd]
      · rw [if_pos hdesc] at h
        simp at h

theorem c8_witness :
    WithSummary (Registry.new []) { Operation.new with summary := "set" } "again" =
      .error .summaryAlreadySet ∧
    WithDescription (Registry.new []) { Operation.new with description := "set" } "again" =
      .error .descriptionAlreadySet := by
  refine ⟨?_, ?_⟩
  · exact c8_amended.1 (Registry.new []) Operation.new "set"
      { Operation.new with summary := "set" } (Registry.new []) "again"
      (by decide) (by decide)
  · exact c8_amended.2 (Registry.new []) Operation.new "set"
      { Operation.new with description := "set" } (Registry.new []) "again"
      (by decide) (by decide)

/-- **C9.** Resolving a collection type (slice or array) resolves the
element type recursively and wraps the element's result in an anonymous
inline array schema, with exactly the catalog effects of the element
resolution; and no resolution ever stores a non-struct type (in particular
no collection type) as a named entry in the catalog: every name in the
registered-types map after a resolution was either there before or maps to
a struct type. -/
theorem c9_collections_inlined :
    (∀ genF modPath r elem ref r2,
       addSchemaAndGetRef genF modPath r elem = (.ok ref, r2) →
       addSchemaAndGetRef genF modPath r (.sliceTy elem) = (.ok (.arrVal ref), r2) ∧
       (∀ n, addSchemaAndGetRef genF modPath r (.arrayTy n elem) =
          (.ok (.arrVal ref), r2))) ∧
    (∀ genF modPath r ty key tyReg,
       alistLookup (addSchemaAndGetRef genF modPath r ty).2.registeredObjectTypes key =
         some tyReg →
       alistLookup r.registeredObjectTypes key = some tyReg ∨
       ∃ pkg nm, tyReg = Ty.structTy pkg nm) := by
  constructor
  · intro genF modPath r elem ref r2 h
    constructor
    · unfold addSchemaAndGetRef
      rw [h]
    · intro n
      unfold addSchemaAndGetRef
      rw [h]
  · intro genF modPath r ty
    induction ty generalizing r with
    | primTy k =>
      intro key tyReg h
      unfold addSchemaAndGetRef at h
      cases hg : genF (.primTy k) with
      | ok s => rw [hg] at h; exact Or.inl h
      | error msg => rw [hg] at h; exact Or.inl h
    | structTy pkg nm =>
      intro key tyReg h
      unfold addSchemaAndGetRef at h
      cases hname : getObjectTypeName modPath r.schemaKeyPrefixesToTrim pkg nm with
      | error e => rw [hname] at h; exact Or.inl h
      | ok n0 =>
        rw [hname] at h
        simp only at h
        cases hreg : alistLookup r.registeredObjectTypes n0 with
        | some regType =>
          rw [hreg] at h
          simp only at h
          by_cases heq : regType = Ty.structTy pkg nm
          · rw [if_pos heq] at h
            exact Or.inl h
          · rw [if_neg heq] at h
            exact Or.inl h
        | none =>
          rw [hreg] at h
          simp only at h
          cases hdoc : r.t with
          | none => rw [hdoc] at h; exact Or.inl h
          | some doc =>
            rw [hdoc] at h
            simp only at h
            cases hgen : genF (.structTy pkg nm) with
            | error msg => rw [hgen] at h; exact Or.inl h
            | ok schema =>
              rw [hgen] at h
              simp only at h
              rcases alistLookup_insert_or _ _ _ _ _ h with ⟨hk, hv⟩ | hold
              · exact Or.inr ⟨pkg, nm, hv⟩
              · exact Or.inl hold
    | sliceTy elem ih =>
      intro key tyReg h
      unfold addSchemaAndGetRef at h
      rcases hrec : addSchemaAndGetRef genF modPath r elem with ⟨res, rr⟩
      rw [hrec] at h
      cases res with
      | ok ref => exact ih r key tyReg (by rw [hrec]; exact h)
      | error e => exact ih r key tyReg (by rw [hrec]; exact h)
    | arrayTy n elem ih =>
      intro key tyReg h
      unfold addSchemaAndGetRef at h
      rcases hrec : addSchemaAndGetRef genF modPath r elem with ⟨res, rr⟩
      rw [hrec] at h
      cases res with
      | ok ref => exact ih r key tyReg (by rw [hrec]; exact h)
      | error e => exact ih r key tyReg (by rw [hrec]; exact h)
    | mapTy k v ihk ihv =>
      intro key tyReg h
      unfold addSchemaAndGetRef at h
      exact Or.inl h
    | chanTy e ih =>
      intro key tyReg h
      unfold addSchemaAndGetRef at h
      exact Or.inl h
    | ptrTy e ih =>
      intro key tyReg h
      unfold addSchemaAndGetRef at h
      exact Or.inl h
    | funcTy =>
      intro key tyReg h
      unfold addSchemaAndGetRef at h
      exact Or.inl h
    | ifaceTy =>
      intro key tyReg h
      unfold addSchemaAndGetRef at h
      exact Or.inl h
    | unsafePtrTy =>
      intro key tyReg h
      unfold addSchemaAndGetRef at h
      exact Or.inl h
    | invalidTy =>
      intro key tyReg h
      unfold addSchemaAndGetRef at h
      exact Or.inl h

theorem c9_witness :
    addSchemaAndGetRef genSample "m" (Registry.new []) (.sliceTy (.primTy "int")) =
      (.ok (.arrVal (.genVal (.primTy "int"))), Registry.new []) ∧
    (alistLookup (Registry.new []).registeredObjectTypes "ModelsUser" =
       some (Ty.structTy "github.com/acme/app/models" "User") ∨
     ∃ pkg nm, Ty.structTy "github.com/acme/app/models" "User" = Ty.structTy pkg nm) := by
  constructor
  · exact (c9_collections_inlined.1 genSample "m" (Registry.new []) (.primTy "int")
      (.genVal (.primTy "int")) (Registry.new []) (by decide)).1
  · exact c9_collections_inlined.2 genSample "github.com/acme/app" (Registry.new [])
      (.structTy "github.com/acme/app/models" "User") "ModelsUser"
      (Ty.structTy "github.com/acme/app/models" "User") (by decide)

/-- **C10 counterexample.** The claim says that for an in-range status and
empty description the stored description is the standard status text, "not
the empty string".  Status 99 is in range (`0 ≤ 99 < 600`) but has no
standard text — `http.StatusText(99)` is `""` — so the stored description
IS the empty string. -/
theorem c10_counterexample :
    (0 ≤ (99 : Int) ∧ (99 : Int) < 600) ∧
    statusText 99 = "" ∧
    WithResponse (Registry.new []) Operation.new 99 "" =
      .ok ({ Operation.new with
              responses := some [("99", { description := "", content := none })] },
           Registry.new []) := by
  decide

/-- **C10 amended.** With an empty description argument and a successful
call, the stored response's description is exactly `http.StatusText(status)`
— the standard status text when the code has one, and the empty string for
in-range codes with no assigned text. -/
theorem c10_amended :
    (∀ r op status op2 r2,
       WithResponse r op status "" = .ok (op2, r2) →
       responsesValue op2.responses (toString status) =
         some { description := statusText status, content := none }) ∧
    (∀ genF modPath r op status ty op2 r2,
       WithResponseWithContent genF modPath r op status "" ty = .ok (op2, r2) →
       ∃ ref, responsesValue op2.responses (toString status) =
         some { description := statusText status, content := some ref }) := by
  constructor
  · intro r op status op2 r2 h
    unfold WithResponse at h
    cases hb : r.built with
    | true => rw [hb] at h; simp at h
    | false =>
      rw [hb] at h
      simp only [Bool.false_eq_true, if_false] at h
      by_cases hrange : status < 0 ∨ 600 ≤ status
      · rw [if_pos hrange] at h
        simp at h
      · rw [if_neg hrange] at h
        by_cases hdup : (responsesValue op.responses (toString status)).isSome = true
        · rw [if_pos hdup] at h
          simp at h
        · rw [if_neg hdup] at h
          simp only [Prod.mk.injEq, Except.ok.injEq] at h
          obtain ⟨hop2, -⟩ := h
          rw [← hop2]
          unfold addResponse responsesValue
          simp [alistLookup_insert_self]
  · intro genF modPath r op status ty op2 r2 h
    unfold WithResponseWithContent at h
    cases hb : r.built with
    | true => rw [hb] at h; simp at h
    | false =>
      rw [hb] at h
      simp only [Bool.false_eq_true, if_false] at h
      by_cases hrange : status < 0 ∨ 600 ≤ status
      · rw [if_pos hrange] at h
        simp at h
      · rw [if_neg hrange] at h
        by_cases hdup : (responsesValue op.responses (toString status)).isSome = true
        · rw [if_pos hdup] at h
          simp at h
        · rw [if_neg hdup] at h
          rcases hrec : addSchemaAndGetRef genF modPath r ty with ⟨res, rr⟩
          rw [hrec] at h
          cases res with
          | error e => simp at h
          | ok ref =>
            simp only [Prod.mk.injEq, Except.ok.injEq] at h
            obtain ⟨hop2, -⟩ := h
            rw [← hop2]
            refine ⟨ref, ?_⟩
            unfold addResponse responsesValue
            simp [alistLookup_insert_self]

theorem c10_witness :
    responsesValue (addResponse Operation.new "200"
        { description := statusText 200, content := none }).responses
      (toString (200 : Int)) =
      some { description := statusText 200, content := none } := by
  exact c10_amended.1 (Registry.new []) Operation.new 200
    (addResponse Operation.new "200" { description := statusText 200, content := none })
    (Registry.new []) (by decide)
